import Mathlib

/-!
Verification of the DEIMOS beamline alignment notebook.

The development shallowly embeds the alignment routines of the notebook
(`align_undulator`, `align_m1`, `align_mono`, `align_call`) and the sweep
driver (`beamline_energy_resolution`).  An optical element is a record of the
fields the alignment code touches; an active chain is a list of such records,
and the Python in-place mutations become functional updates at list indices.
Out-of-range indexing is modelled the way Python raises `IndexError`: each
step returns the chain state reached so far together with an optional raised
error, so mutations performed before an exception are kept, exactly as with
Python's shared mutable objects.

External collaborators (the PyOptiX source model `set_undulator`, the grating
solver `align_grating`, numpy's `sin`/`tan`, and the electron-parameter CSV
entries) are passed in as explicit parameters, collected in `Collab`; the
repository's own formulas are translated literally.  Real-valued quantities
are modelled with `ℚ`, which keeps every definition executable.
-/

set_option maxHeartbeats 1000000

namespace SoleilDeimos

/-- An optical element of the beamline, restricted to the fields read or
written by the alignment scripts.  `next` holds the chain index of the
downstream element (the Python code stores an object reference; within one
chain the elements are pairwise distinct objects, so an index is a faithful
rendering). -/
structure OptElem where
  name : String
  theta : ℚ := 0
  phi : ℚ := 0
  distance_from_previous : ℚ := 0
  next : Option Nat := none
  line_density : ℚ := 0
  order_align : ℤ := 0
  deriving Repr, DecidableEq, Inhabited

/-- The attribute assignment `e.theta = v`. -/
def setTheta (e : OptElem) (v : ℚ) : OptElem :=
  { e with theta := v }

/-- The attribute assignment `e.distance_from_previous = v`. -/
def setDist (e : OptElem) (v : ℚ) : OptElem :=
  { e with distance_from_previous := v }

/-- The attribute assignment `e.next = v` (the index of the target element). -/
def setNext (e : OptElem) (v : Option Nat) : OptElem :=
  { e with next := v }

/-- The dictionary returned by `opx.align_grating(..., return_parameters=True)`:
incidence angle `alpha`, diffraction angle `beta` (each also in degrees) and
the total `deviation` angle. -/
structure GDict where
  alpha : ℚ
  beta : ℚ
  alpha_deg : ℚ
  beta_deg : ℚ
  deviation : ℚ
  deriving Repr, DecidableEq, Inhabited

/-- The external collaborators used by the alignment scripts:
`su` is `set_undulator`, `sinF`/`tanF` are `np.sin`/`np.tan`,
`solver` is the parameter-returning part of `opx.align_grating`
(arguments: wavelength, condition, condition value, order, line density),
`applyAlign` is its `apply_alignment=True` effect on the grating element,
and `lp1`/`lp2` are the `Long_Pos(m)` CSV entries for `DEIMOS_1`/`DEIMOS_2`. -/
structure Collab where
  su : OptElem → ℚ → OptElem
  sinF : ℚ → ℚ
  tanF : ℚ → ℚ
  solver : ℚ → String → ℚ → ℤ → ℚ → GDict
  applyAlign : OptElem → GDict → OptElem
  lp1 : ℚ
  lp2 : ℚ

/-- Whether `needle` is an initial segment of `hay`. -/
def listIsPre : List Char → List Char → Bool
  | [], _ => true
  | _ :: _, [] => false
  | a :: as, b :: bs => a == b && listIsPre as bs

/-- Whether `needle` occurs contiguously inside `hay`
(the semantics of Python's `needle in hay` on strings). -/
def listHasSub (needle : List Char) : List Char → Bool
  | [] => listIsPre needle []
  | b :: bs => listIsPre needle (b :: bs) || listHasSub needle bs

/-- Python's `needle in hay` for strings. -/
def hasSub (needle hay : String) : Bool := listHasSub needle.data hay.data

/-- The grating test of `align_mono`:
`"reseau" in oe.name.lower() or "grating" in oe.name.lower()`. -/
def gratingMatch (name : String) : Bool :=
  listHasSub ("reseau".data) (name.data.map Char.toLower) ||
  listHasSub ("grating".data) (name.data.map Char.toLower)

/-- The scanning loop of `align_mono`: enumerate the chain and remember the
position of a matching element; there is no `break`, so a later match
overwrites an earlier one. -/
def scanAux : Nat → Option Nat → List OptElem → Option Nat
  | _, acc, [] => acc
  | i, acc, oe :: rest => scanAux (i + 1) (if gratingMatch oe.name then some i else acc) rest

/-- Position of the grating found by `align_mono`'s scan over the chain. -/
def scanGrating (chain : List OptElem) : Option Nat := scanAux 0 none chain

/-- Read the element at index `i` (total; callers guard bounds as Python's
indexing would). -/
def readE (chain : List OptElem) (i : Nat) : OptElem := chain.getD i default

/-- Mutate the element at index `i` in place, raising `IndexError` when the
index is out of range, as Python's `chain[i].attr = v` would. -/
def writeF (chain : List OptElem) (i : Nat) (f : OptElem → OptElem) :
    List OptElem × Option String :=
  if i < chain.length then (chain.set i (f (readE chain i)), none)
  else (chain, some "IndexError")

/-- Sequence two mutating steps; once an error is raised, the state reached so
far is kept and later steps are skipped (exception propagation). -/
def andThen (r : List OptElem × Option String)
    (k : List OptElem → List OptElem × Option String) : List OptElem × Option String :=
  match r with
  | (c, none) => k c
  | (c, some e) => (c, some e)

/-- Default of the `dist_slit` keyword option of `align_undulator`. -/
def dist_slit_default : ℚ := 21

/-- Default of the `dist_next` keyword option of `align_m1`. -/
def dist_next_default : ℚ := 5

/-- `align_undulator(active_chain, wavelength, **kwargs)`: configure the
source for the wavelength, set the second element's distance to `dist_slit`,
and subtract the `DEIMOS_2`/`DEIMOS_1` longitudinal offset when the source
name contains `"65"`. -/
def align_undulator (co : Collab) (chain : List OptElem) (wavelength : ℚ)
    (dist_slit : ℚ) : List OptElem × Option String :=
  andThen (writeF chain 0 (fun e => co.su e wavelength)) fun c1 =>
  andThen (writeF c1 1 (fun e => setDist e dist_slit)) fun c2 =>
  if hasSub "65" ((readE c2 0).name) then
    writeF c2 1 (fun e => setDist e (e.distance_from_previous - (co.lp2 - co.lp1)))
  else (c2, none)

/-- `align_m1(active_chain, m1_distances, **kwargs)`: copy the branch mirror's
grazing angle onto the flat mirror, relink the periscope pair, set the
distance to the next element and apply the `M1B` branch correction. -/
def align_m1 (m1_distances : Fin 2 → Fin 2 → ℚ) (chain : List OptElem)
    (dist_next : ℚ) : List OptElem × Option String :=
  if 3 < chain.length then
    andThen (writeF chain 2 (fun e => setTheta e (readE chain 3).theta)) fun c1 =>
    andThen (writeF c1 2 (fun e => setNext e (some 3))) fun c2 =>
    andThen (writeF c2 3 (fun e => setNext e (some 4))) fun c3 =>
    andThen (writeF c3 4 (fun e => setDist e dist_next)) fun c4 =>
    if hasSub "1B" ((readE c4 3).name) then
      writeF c4 4 (fun e =>
        setDist e (e.distance_from_previous + (m1_distances 1 1 - m1_distances 0 1)))
    else (c4, none)
  else (chain, some "IndexError")

/-- `align_mono(active_chain, wavelength, alignment_condition,
alignment_condition_value, GM2_trans_dist, GM3_proj_dist, **kwargs)`:
scan for the grating, raise `ValueError` when none is found, call the
external solver, and set the angle of the element after the grating and the
two distances of the two elements after the grating. -/
def align_mono (co : Collab) (chain : List OptElem) (wavelength : ℚ)
    (alignment_condition : String) (alignment_condition_value : ℚ)
    (GM2_trans_dist GM3_proj_dist : ℚ) : List OptElem × Option String :=
  match scanGrating chain with
  | none => (chain, some "No grating appears in this beamline configuration")
  | some mono_oe_pos =>
    let grating := readE chain mono_oe_pos
    let gdict := co.solver wavelength alignment_condition alignment_condition_value
        grating.order_align grating.line_density
    let c0 := chain.set mono_oe_pos (co.applyAlign grating gdict)
    let gm2 := GM2_trans_dist / co.sinF gdict.deviation
    let m2m3 := GM3_proj_dist - GM2_trans_dist / co.tanF gdict.deviation
    andThen (writeF c0 (mono_oe_pos + 1) (fun e => setTheta e (gdict.deviation / 2))) fun c1 =>
    andThen (writeF c1 (mono_oe_pos + 1) (fun e => setDist e gm2)) fun c2 =>
    writeF c2 (mono_oe_pos + 2) (fun e => setDist e m2m3)

/-- `align_call`: the three alignment steps in order on the active chain. -/
def align_call (co : Collab) (chain : List OptElem)
    (alignment_wvl emission_wvl : ℚ) (alignment_condition : String)
    (alignment_condition_value : ℚ) (m1_distances : Fin 2 → Fin 2 → ℚ)
    (GM2_trans_dist GM3_proj_dist : ℚ) (dist_slit dist_next : ℚ) :
    List OptElem × Option String :=
  andThen (align_undulator co chain emission_wvl dist_slit) fun c1 =>
  andThen (align_m1 m1_distances c1 dist_next) fun c2 =>
  align_mono co c2 alignment_wvl alignment_condition alignment_condition_value
    GM2_trans_dist GM3_proj_dist

/-- Fixed-point formatting with two decimals, as in the f-string `{algn:.2f}`
used for the resolution-table column keys. -/
def fmt2 (q : ℚ) : String :=
  let m : ℤ := round (q * 100)
  let sign := if m < 0 then "-" else ""
  let a := m.natAbs
  sign ++ toString (a / 100) ++ "." ++ (if a % 100 < 10 then "0" else "") ++ toString (a % 100)

/-- The resolution table assembled by `beamline_energy_resolution`: the shared
energy column plus one named column per configuration/condition-value pair. -/
structure ResTable where
  energy : List ℚ
  columns : List (String × List ℚ)
  deriving Repr, DecidableEq

/-- Python-dict assignment `resolution[key] = curves`: overwrite an existing
key, otherwise append in insertion order. -/
def dictSet (cols : List (String × List ℚ)) (key : String) (curves : List ℚ) :
    List (String × List ℚ) :=
  if cols.any (fun p => p.1 == key) then
    cols.map (fun p => if p.1 == key then (key, curves) else p)
  else cols ++ [(key, curves)]

/-- The inner energy loop of `beamline_energy_resolution`.  The progress-bar
guard evaluates `i % (total_steps // 10)`, which raises `ZeroDivisionError`
whenever `total_steps // 10` is zero, before any resolution is computed. -/
def energyLoop (getRes : String → ℚ → ℚ → ℚ) (config : String) (algn : ℚ)
    (total_steps : Nat) : Nat → List ℚ → Except String (List ℚ)
  | _, [] => Except.ok []
  | i, E :: rest =>
    if total_steps / 10 = 0 then Except.error "ZeroDivisionError"
    else
      let res := getRes config algn E
      match energyLoop getRes config algn total_steps (i + 1) rest with
      | Except.error e => Except.error e
      | Except.ok curves => Except.ok (res :: curves)

/-- The configuration loop of `beamline_energy_resolution`. -/
def configLoop (getRes : String → ℚ → ℚ → ℚ) (alignment_condition : String)
    (algn : ℚ) (energy : List ℚ) :
    List String → List (String × List ℚ) → Except String (List (String × List ℚ))
  | [], cols => Except.ok cols
  | config :: rest, cols =>
    match energyLoop getRes config algn energy.length 0 energy with
    | Except.error e => Except.error e
    | Except.ok curves =>
      configLoop getRes alignment_condition algn energy rest
        (dictSet cols (config ++ "_" ++ alignment_condition ++ "_" ++ fmt2 algn) curves)

/-- The outer condition-value loop of `beamline_energy_resolution`. -/
def algnLoop (getRes : String → ℚ → ℚ → ℚ) (alignment_condition : String)
    (energy : List ℚ) (active_chains : List String) :
    List ℚ → List (String × List ℚ) → Except String (List (String × List ℚ))
  | [], cols => Except.ok cols
  | algn :: rest, cols =>
    match configLoop getRes alignment_condition algn energy active_chains cols with
    | Except.error e => Except.error e
    | Except.ok cols2 => algnLoop getRes alignment_condition energy active_chains rest cols2

/-- `beamline_energy_resolution(energy, active_chains, alignment_condition,
alignment_condition_values, nrays)`: sweep every condition value and
configuration over the energy array, collecting one resolution list per
`<config>_<condition>_<value:.2f>` key next to the shared energy column.
`getRes` abstracts `Deimos.get_resolution` as a function of the active chain
name, the condition value and the energy (all its other arguments are fixed
at the call site). -/
def beamline_energy_resolution (getRes : String → ℚ → ℚ → ℚ) (energy : List ℚ)
    (active_chains : List String) (alignment_condition : String)
    (alignment_condition_values : List ℚ) : Except String ResTable :=
  match algnLoop getRes alignment_condition energy active_chains
      alignment_condition_values [] with
  | Except.error e => Except.error e
  | Except.ok cols => Except.ok { energy := energy, columns := cols }

/-! ### Field-update lemmas (all definitional) -/

@[simp] theorem setTheta_theta (e : OptElem) (v : ℚ) : (setTheta e v).theta = v := rfl

@[simp] theorem setTheta_name (e : OptElem) (v : ℚ) : (setTheta e v).name = e.name := rfl

@[simp] theorem setTheta_phi (e : OptElem) (v : ℚ) : (setTheta e v).phi = e.phi := rfl

@[simp] theorem setTheta_dist (e : OptElem) (v : ℚ) :
    (setTheta e v).distance_from_previous = e.distance_from_previous := rfl

@[simp] theorem setTheta_next (e : OptElem) (v : ℚ) : (setTheta e v).next = e.next := rfl

@[simp] theorem setTheta_ld (e : OptElem) (v : ℚ) :
    (setTheta e v).line_density = e.line_density := rfl

@[simp] theorem setTheta_oa (e : OptElem) (v : ℚ) :
    (setTheta e v).order_align = e.order_align := rfl

@[simp] theorem setDist_dist (e : OptElem) (v : ℚ) :
    (setDist e v).distance_from_previous = v := rfl

@[simp] theorem setDist_name (e : OptElem) (v : ℚ) : (setDist e v).name = e.name := rfl

@[simp] theorem setDist_theta (e : OptElem) (v : ℚ) : (setDist e v).theta = e.theta := rfl

@[simp] theorem setDist_phi (e : OptElem) (v : ℚ) : (setDist e v).phi = e.phi := rfl

@[simp] theorem setDist_next (e : OptElem) (v : ℚ) : (setDist e v).next = e.next := rfl

@[simp] theorem setDist_ld (e : OptElem) (v : ℚ) :
    (setDist e v).line_density = e.line_density := rfl

@[simp] theorem setDist_oa (e : OptElem) (v : ℚ) :
    (setDist e v).order_align = e.order_align := rfl

@[simp] theorem setNext_next (e : OptElem) (v : Option Nat) : (setNext e v).next = v := rfl

@[simp] theorem setNext_name (e : OptElem) (v : Option Nat) : (setNext e v).name = e.name := rfl

@[simp] theorem setNext_theta (e : OptElem) (v : Option Nat) :
    (setNext e v).theta = e.theta := rfl

@[simp] theorem setNext_phi (e : OptElem) (v : Option Nat) : (setNext e v).phi = e.phi := rfl

@[simp] theorem setNext_dist (e : OptElem) (v : Option Nat) :
    (setNext e v).distance_from_previous = e.distance_from_previous := rfl

@[simp] theorem setNext_ld (e : OptElem) (v : Option Nat) :
    (setNext e v).line_density = e.line_density := rfl

@[simp] theorem setNext_oa (e : OptElem) (v : Option Nat) :
    (setNext e v).order_align = e.order_align := rfl

@[simp] theorem setDist_setDist (e : OptElem) (a b : ℚ) :
    setDist (setDist e a) b = setDist e b := rfl

@[simp] theorem setTheta_setTheta (e : OptElem) (a b : ℚ) :
    setTheta (setTheta e a) b = setTheta e b := rfl

@[simp] theorem setNext_setNext (e : OptElem) (a b : Option Nat) :
    setNext (setNext e a) b = setNext e b := rfl

theorem setDist_own (e : OptElem) : setDist e e.distance_from_previous = e := rfl

/-! ### Index bookkeeping lemmas -/

theorem readE_nil (i : Nat) : readE [] i = default := rfl

theorem readE_cons_zero (e : OptElem) (t : List OptElem) : readE (e :: t) 0 = e := rfl

theorem readE_cons_succ (e : OptElem) (t : List OptElem) (i : Nat) :
    readE (e :: t) (i + 1) = readE t i := rfl

theorem readE_set_self : ∀ (c : List OptElem) (i : Nat) (e : OptElem),
    i < c.length → readE (c.set i e) i = e
  | _ :: _, 0, _, _ => rfl
  | a :: t, i + 1, e, h => readE_set_self t i e (Nat.lt_of_succ_lt_succ h)

theorem readE_set_ne : ∀ (c : List OptElem) (i j : Nat) (e : OptElem),
    i ≠ j → readE (c.set i e) j = readE c j
  | [], _, _, _, _ => rfl
  | _ :: _, 0, 0, _, h => absurd rfl h
  | _ :: _, 0, _ + 1, _, _ => rfl
  | _ :: _, _ + 1, 0, _, _ => rfl
  | a :: t, i + 1, j + 1, e, h =>
    readE_set_ne t i j e (fun hc => h (congrArg Nat.succ hc))

theorem readE_ge_length : ∀ (c : List OptElem) (i : Nat), c.length ≤ i → readE c i = default
  | [], _, _ => rfl
  | a :: t, i + 1, h => readE_ge_length t i (Nat.le_of_succ_le_succ h)

theorem list_ext_readE : ∀ (c₁ c₂ : List OptElem), c₁.length = c₂.length →
    (∀ i, i < c₁.length → readE c₁ i = readE c₂ i) → c₁ = c₂
  | [], [], _, _ => rfl
  | a :: t, b :: u, h, hr => by
    have h0 : a = b := hr 0 (Nat.succ_pos _)
    have ht : t = u := list_ext_readE t u (Nat.succ_injective h)
      (fun i hi => hr (i + 1) (Nat.succ_lt_succ hi))
    rw [h0, ht]

/-! ### Scan lemmas -/

theorem scanAux_congr : ∀ (c c' : List OptElem) (i : Nat) (acc : Option Nat),
    c.length = c'.length → (∀ j, j < c.length → (readE c j).name = (readE c' j).name) →
    scanAux i acc c = scanAux i acc c'
  | [], [], _, _, _, _ => rfl
  | [], _ :: _, _, _, h, _ => by simp at h
  | _ :: _, [], _, _, h, _ => by simp at h
  | a :: t, b :: u, i, acc, h, hn => by
    have h0 : a.name = b.name := hn 0 (Nat.succ_pos _)
    show scanAux (i + 1) (if gratingMatch a.name then some i else acc) t
        = scanAux (i + 1) (if gratingMatch b.name then some i else acc) u
    rw [h0]
    exact scanAux_congr t u (i + 1) _ (Nat.succ_injective h)
      (fun j hj => hn (j + 1) (Nat.succ_lt_succ hj))

theorem scanGrating_congr (c c' : List OptElem) (h : c.length = c'.length)
    (hn : ∀ j, j < c.length → (readE c j).name = (readE c' j).name) :
    scanGrating c = scanGrating c' :=
  scanAux_congr c c' 0 none h hn

theorem scanAux_no_match : ∀ (c : List OptElem) (i : Nat) (acc : Option Nat),
    (∀ e ∈ c, gratingMatch e.name = false) → scanAux i acc c = acc
  | [], _, _, _ => rfl
  | a :: t, i, acc, h => by
    show scanAux (i + 1) (if gratingMatch a.name then some i else acc) t = acc
    rw [h a (List.mem_cons_self a t), if_neg (by simp)]
    exact scanAux_no_match t (i + 1) acc (fun e he => h e (List.mem_cons_of_mem a he))

theorem forall_mem_of_readE : ∀ (c : List OptElem) (P : OptElem → Prop),
    (∀ j, j < c.length → P (readE c j)) → ∀ e ∈ c, P e
  | [], _, _, e, he => absurd he (by simp)
  | a :: t, P, h, e, he => by
    rcases List.mem_cons.mp he with rfl | ht
    · exact h 0 (Nat.succ_pos _)
    · exact forall_mem_of_readE t P (fun j hj => h (j + 1) (Nat.succ_lt_succ hj)) e ht

theorem scanAux_last_match : ∀ (c : List OptElem) (i : Nat) (acc : Option Nat) (p : Nat),
    p < c.length → gratingMatch (readE c p).name = true →
    (∀ j, p < j → j < c.length → gratingMatch (readE c j).name = false) →
    scanAux i acc c = some (i + p)
  | [], _, _, p, hp, _, _ => absurd hp (by simp)
  | a :: t, i, acc, 0, _, hm, hl => by
    show scanAux (i + 1) (if gratingMatch a.name then some i else acc) t = some (i + 0)
    rw [show gratingMatch a.name = true from hm, if_pos rfl]
    have hall : ∀ e ∈ t, gratingMatch e.name = false :=
      forall_mem_of_readE t _ (fun j hj => by
        have := hl (j + 1) (Nat.succ_pos _) (Nat.succ_lt_succ hj)
        rwa [readE_cons_succ] at this)
    rw [scanAux_no_match t (i + 1) (some i) hall, Nat.add_zero]
  | a :: t, i, acc, p + 1, hp, hm, hl => by
    show scanAux (i + 1) (if gratingMatch a.name then some i else acc) t = some (i + (p + 1))
    have := scanAux_last_match t (i + 1) (if gratingMatch a.name then some i else acc) p
      (Nat.lt_of_succ_lt_succ hp) hm
      (fun j hj hjl => hl (j + 1) (Nat.succ_lt_succ hj) (Nat.succ_lt_succ hjl))
    rw [this]
    congr 1
    omega

theorem scanGrating_last_match (c : List OptElem) (p : Nat) (hp : p < c.length)
    (hm : gratingMatch (readE c p).name = true)
    (hl : ∀ j, p < j → j < c.length → gratingMatch (readE c j).name = false) :
    scanGrating c = some p := by
  have := scanAux_last_match c 0 none p hp hm hl
  simpa using this

theorem scanAux_none : ∀ (c : List OptElem) (i : Nat) (acc : Option Nat),
    scanAux i acc c = none → acc = none ∧ ∀ e ∈ c, gratingMatch e.name = false
  | [], _, _, h => ⟨h, by simp⟩
  | a :: t, i, acc, h => by
    have rec := scanAux_none t (i + 1) (if gratingMatch a.name then some i else acc) h
    constructor
    · by_cases hm : gratingMatch a.name
      · rw [if_pos hm] at rec
        exact absurd rec.1 (by simp)
      · rw [if_neg hm] at rec
        exact rec.1
    · intro e he
      rcases List.mem_cons.mp he with rfl | ht
      · by_cases hm : gratingMatch e.name
        · rw [if_pos hm] at rec
          exact absurd rec.1 (by simp)
        · simpa using hm
      · exact rec.2 e ht

theorem scanGrating_none_iff (c : List OptElem) :
    scanGrating c = none ↔ ∀ e ∈ c, gratingMatch e.name = false := by
  constructor
  · intro h
    exact (scanAux_none c 0 none h).2
  · intro h
    exact scanAux_no_match c 0 none h

/-! ### Closed forms of the three alignment steps -/

/-- The chain produced by a successful `align_undulator` call. -/
def undOut (co : Collab) (chain : List OptElem) (w ds : ℚ) : List OptElem :=
  (chain.set 0 (co.su (readE chain 0) w)).set 1
    (setDist (readE chain 1)
      (if hasSub "65" ((co.su (readE chain 0) w).name) then ds - (co.lp2 - co.lp1) else ds))

/-- The chain produced by a successful `align_m1` call. -/
def m1Out (md : Fin 2 → Fin 2 → ℚ) (chain : List OptElem) (dn : ℚ) : List OptElem :=
  ((chain.set 2 (setNext (setTheta (readE chain 2) (readE chain 3).theta) (some 3))).set 3
    (setNext (readE chain 3) (some 4))).set 4
    (setDist (readE chain 4)
      (if hasSub "1B" ((readE chain 3).name) then dn + (md 1 1 - md 0 1) else dn))

/-- The solver dictionary computed by `align_mono` for the grating at `p`. -/
def monoGD (co : Collab) (chain : List OptElem) (w : ℚ) (cond : String) (v : ℚ)
    (p : Nat) : GDict :=
  co.solver w cond v (readE chain p).order_align (readE chain p).line_density

/-- The chain produced by a successful `align_mono` call with the grating at `p`. -/
def monoOut (co : Collab) (chain : List OptElem) (w : ℚ) (cond : String)
    (v g2 g3 : ℚ) (p : Nat) : List OptElem :=
  ((chain.set p (co.applyAlign (readE chain p) (monoGD co chain w cond v p))).set (p + 1)
    (setDist (setTheta (readE chain (p + 1)) ((monoGD co chain w cond v p).deviation / 2))
      (g2 / co.sinF (monoGD co chain w cond v p).deviation))).set (p + 2)
    (setDist (readE chain (p + 2))
      (g3 - g2 / co.tanF (monoGD co chain w cond v p).deviation))

theorem align_undulator_run (co : Collab) (chain : List OptElem) (w ds : ℚ)
    (h : 2 ≤ chain.length) :
    align_undulator co chain w ds = (undOut co chain w ds, none) := by
  unfold undOut
  have h0 : 0 < chain.length := by omega
  have h1 : 1 < chain.length := by omega
  have h1' : 1 < (chain.set 0 (co.su (readE chain 0) w)).length := by
    rwa [List.length_set]
  simp only [align_undulator, writeF, if_pos h0, if_pos h1', andThen]
  rw [readE_set_ne chain 0 1 _ (by omega)]
  set a := co.su (readE chain 0) w with ha
  set e1 := readE chain 1 with he1
  have hr0 : readE ((chain.set 0 a).set 1 (setDist e1 ds)) 0 = a := by
    rw [readE_set_ne _ 1 0 _ (by omega), readE_set_self _ 0 _ h0]
  by_cases hc : hasSub "65" a.name
  · rw [hr0, if_pos hc, if_pos hc]
    have h1'' : 1 < ((chain.set 0 a).set 1 (setDist e1 ds)).length := by
      simpa using h1
    simp only [writeF, if_pos h1'']
    rw [readE_set_self _ 1 _ (by simpa using h1), List.set_set]
    simp
  · rw [hr0, if_neg hc, if_neg hc]

theorem align_m1_run (md : Fin 2 → Fin 2 → ℚ) (chain : List OptElem) (dn : ℚ)
    (h : 5 ≤ chain.length) :
    align_m1 md chain dn = (m1Out md chain dn, none) := by
  unfold m1Out
  have h2 : 2 < chain.length := by omega
  have h3 : 3 < chain.length := by omega
  have h4 : 4 < chain.length := by omega
  set e2 := readE chain 2 with he2
  set e3 := readE chain 3 with he3
  set e4 := readE chain 4 with he4
  simp only [align_m1, if_pos h3]
  simp only [writeF, if_pos h2, andThen]
  set c1 := chain.set 2 (setTheta e2 e3.theta) with hc1
  have h2' : 2 < c1.length := by simpa [hc1] using h2
  simp only [if_pos h2']
  rw [hc1, readE_set_self chain 2 _ h2, List.set_set]
  set c2 := chain.set 2 (setNext (setTheta e2 e3.theta) (some 3)) with hc2
  have h3' : 3 < c2.length := by simpa [hc2] using h3
  simp only [if_pos h3']
  rw [hc2, readE_set_ne chain 2 3 _ (by omega)]
  set c3 := c2.set 3 (setNext e3 (some 4)) with hc3
  have h4' : 4 < c3.length := by simpa [hc3, hc2] using h4
  simp only [if_pos h4']
  rw [hc3, readE_set_ne c2 3 4 _ (by omega), hc2,
    readE_set_ne chain 2 4 _ (by omega)]
  set c4 := c3.set 4 (setDist e4 dn) with hc4
  have hr3 : readE c4 3 = setNext e3 (some 4) := by
    rw [hc4, readE_set_ne c3 4 3 _ (by omega), hc3,
      readE_set_self c2 3 _ (by simpa [hc2] using h3)]
  rw [hr3, setNext_name]
  by_cases hb : hasSub "1B" e3.name
  · rw [if_pos hb, if_pos hb]
    have h4'' : 4 < c4.length := by simpa [hc4, hc3, hc2] using h4
    simp only [writeF, if_pos h4'']
    rw [hc4, readE_set_self c3 4 _ (by simpa [hc3, hc2] using h4), List.set_set, hc3]
    simp
  · rw [if_neg hb, if_neg hb, hc4, hc3]

theorem align_mono_run (co : Collab) (chain : List OptElem) (w : ℚ)
    (cond : String) (v : ℚ) (g2 g3 : ℚ) (p : Nat)
    (hscan : scanGrating chain = some p) (hb : p + 2 < chain.length) :
    align_mono co chain w cond v g2 g3 =
      (monoOut co chain w cond v g2 g3 p, none) := by
  unfold monoOut monoGD
  have hp1 : p + 1 < chain.length := by omega
  have hp2 : p + 2 < chain.length := hb
  set g := readE chain p with hg
  set gdict := co.solver w cond v g.order_align g.line_density with hgd
  simp only [align_mono, hscan]
  set c0 := chain.set p (co.applyAlign g gdict) with hc0
  have hp1' : p + 1 < c0.length := by simpa [hc0] using hp1
  simp only [writeF, if_pos hp1', andThen]
  rw [hc0, readE_set_ne chain p (p + 1) _ (by omega)]
  set c1 := c0.set (p + 1) (setTheta (readE chain (p + 1)) (gdict.deviation / 2)) with hc1
  have hp1'' : p + 1 < c1.length := by simpa [hc1, hc0] using hp1
  simp only [if_pos hp1'']
  rw [hc1, readE_set_self c0 (p + 1) _ (by simpa [hc0] using hp1), List.set_set]
  set c2 := c0.set (p + 1)
      (setDist (setTheta (readE chain (p + 1)) (gdict.deviation / 2))
        (g2 / co.sinF gdict.deviation)) with hc2
  have hp2' : p + 2 < c2.length := by simpa [hc2, hc0] using hp2
  simp only [if_pos hp2']
  rw [hc2, readE_set_ne c0 (p + 1) (p + 2) _ (by omega), hc0,
    readE_set_ne chain p (p + 2) _ (by omega)]

/-! ### Access lemmas for the step outputs -/

theorem length_undOut (co : Collab) (chain : List OptElem) (w ds : ℚ) :
    (undOut co chain w ds).length = chain.length := by
  unfold undOut
  simp only [List.length_set]

theorem readE_undOut_zero (co : Collab) (chain : List OptElem) (w ds : ℚ)
    (h : 0 < chain.length) :
    readE (undOut co chain w ds) 0 = co.su (readE chain 0) w := by
  unfold undOut
  rw [readE_set_ne _ 1 0 _ (by omega), readE_set_self _ 0 _ h]

theorem readE_undOut_one (co : Collab) (chain : List OptElem) (w ds : ℚ)
    (h : 1 < chain.length) :
    readE (undOut co chain w ds) 1 =
      setDist (readE chain 1)
        (if hasSub "65" ((co.su (readE chain 0) w).name) then
          ds - (co.lp2 - co.lp1) else ds) := by
  unfold undOut
  rw [readE_set_self _ 1 _ (by simp only [List.length_set]; omega)]

theorem readE_undOut_other (co : Collab) (chain : List OptElem) (w ds : ℚ)
    (j : Nat) (h0 : j ≠ 0) (h1 : j ≠ 1) :
    readE (undOut co chain w ds) j = readE chain j := by
  unfold undOut
  rw [readE_set_ne _ 1 j _ (fun hc => h1 hc.symm),
    readE_set_ne _ 0 j _ (fun hc => h0 hc.symm)]

theorem length_m1Out (md : Fin 2 → Fin 2 → ℚ) (chain : List OptElem) (dn : ℚ) :
    (m1Out md chain dn).length = chain.length := by
  unfold m1Out
  simp only [List.length_set]

theorem readE_m1Out_two (md : Fin 2 → Fin 2 → ℚ) (chain : List OptElem) (dn : ℚ)
    (h : 2 < chain.length) :
    readE (m1Out md chain dn) 2 =
      setNext (setTheta (readE chain 2) (readE chain 3).theta) (some 3) := by
  unfold m1Out
  rw [readE_set_ne _ 4 2 _ (by omega), readE_set_ne _ 3 2 _ (by omega),
    readE_set_self _ 2 _ h]

theorem readE_m1Out_three (md : Fin 2 → Fin 2 → ℚ) (chain : List OptElem) (dn : ℚ)
    (h : 3 < chain.length) :
    readE (m1Out md chain dn) 3 = setNext (readE chain 3) (some 4) := by
  unfold m1Out
  rw [readE_set_ne _ 4 3 _ (by omega),
    readE_set_self _ 3 _ (by simp only [List.length_set]; omega)]

theorem readE_m1Out_four (md : Fin 2 → Fin 2 → ℚ) (chain : List OptElem) (dn : ℚ)
    (h : 4 < chain.length) :
    readE (m1Out md chain dn) 4 =
      setDist (readE chain 4)
        (if hasSub "1B" ((readE chain 3).name) then dn + (md 1 1 - md 0 1) else dn) := by
  unfold m1Out
  rw [readE_set_self _ 4 _ (by simp only [List.length_set]; omega)]

theorem readE_m1Out_other (md : Fin 2 → Fin 2 → ℚ) (chain : List OptElem) (dn : ℚ)
    (j : Nat) (h2 : j ≠ 2) (h3 : j ≠ 3) (h4 : j ≠ 4) :
    readE (m1Out md chain dn) j = readE chain j := by
  unfold m1Out
  rw [readE_set_ne _ 4 j _ (fun hc => h4 hc.symm),
    readE_set_ne _ 3 j _ (fun hc => h3 hc.symm),
    readE_set_ne _ 2 j _ (fun hc => h2 hc.symm)]

theorem length_monoOut (co : Collab) (chain : List OptElem) (w : ℚ) (cond : String)
    (v g2 g3 : ℚ) (p : Nat) :
    (monoOut co chain w cond v g2 g3 p).length = chain.length := by
  unfold monoOut
  simp only [List.length_set]

theorem readE_monoOut_p (co : Collab) (chain : List OptElem) (w : ℚ) (cond : String)
    (v g2 g3 : ℚ) (p : Nat) (h : p < chain.length) :
    readE (monoOut co chain w cond v g2 g3 p) p =
      co.applyAlign (readE chain p) (monoGD co chain w cond v p) := by
  unfold monoOut
  rw [readE_set_ne _ (p + 2) p _ (by omega), readE_set_ne _ (p + 1) p _ (by omega),
    readE_set_self _ p _ h]

theorem readE_monoOut_p1 (co : Collab) (chain : List OptElem) (w : ℚ) (cond : String)
    (v g2 g3 : ℚ) (p : Nat) (h : p + 1 < chain.length) :
    readE (monoOut co chain w cond v g2 g3 p) (p + 1) =
      setDist (setTheta (readE chain (p + 1)) ((monoGD co chain w cond v p).deviation / 2))
        (g2 / co.sinF (monoGD co chain w cond v p).deviation) := by
  unfold monoOut
  rw [readE_set_ne _ (p + 2) (p + 1) _ (by omega),
    readE_set_self _ (p + 1) _ (by simp only [List.length_set]; omega)]

theorem readE_monoOut_p2 (co : Collab) (chain : List OptElem) (w : ℚ) (cond : String)
    (v g2 g3 : ℚ) (p : Nat) (h : p + 2 < chain.length) :
    readE (monoOut co chain w cond v g2 g3 p) (p + 2) =
      setDist (readE chain (p + 2))
        (g3 - g2 / co.tanF (monoGD co chain w cond v p).deviation) := by
  unfold monoOut
  rw [readE_set_self _ (p + 2) _ (by simp only [List.length_set]; omega)]

theorem readE_monoOut_other (co : Collab) (chain : List OptElem) (w : ℚ)
    (cond : String) (v g2 g3 : ℚ) (p : Nat) (j : Nat)
    (hp : j ≠ p) (hp1 : j ≠ p + 1) (hp2 : j ≠ p + 2) :
    readE (monoOut co chain w cond v g2 g3 p) j = readE chain j := by
  unfold monoOut
  rw [readE_set_ne _ (p + 2) j _ (fun hc => hp2 hc.symm),
    readE_set_ne _ (p + 1) j _ (fun hc => hp1 hc.symm),
    readE_set_ne _ p j _ (fun hc => hp hc.symm)]

/-! ### Identity-collapse and scan-preservation lemmas -/

theorem set_readE_self : ∀ (c : List OptElem) (i : Nat), i < c.length →
    c.set i (readE c i) = c
  | a :: t, 0, _ => rfl
  | a :: t, i + 1, h => by
    show a :: t.set i (readE t i) = a :: t
    rw [set_readE_self t i (Nat.lt_of_succ_lt_succ h)]
  | [], i, h => absurd h (by simp)

theorem setTheta_eq_self (e : OptElem) (v : ℚ) (h : e.theta = v) : setTheta e v = e := by
  subst h
  rfl

theorem setDist_eq_self (e : OptElem) (v : ℚ) (h : e.distance_from_previous = v) :
    setDist e v = e := by
  subst h
  rfl

theorem setNext_eq_self (e : OptElem) (v : Option Nat) (h : e.next = v) :
    setNext e v = e := by
  subst h
  rfl

theorem scan_set_name (c : List OptElem) (i : Nat) (e : OptElem)
    (hn : e.name = (readE c i).name) : scanGrating (c.set i e) = scanGrating c := by
  apply scanGrating_congr
  · simp
  · intro j hj
    by_cases hij : i = j
    · subst hij
      rw [readE_set_self c i e (by simpa using hj), hn]
    · rw [readE_set_ne c i j e hij]

theorem scan_undOut (co : Collab) (chain : List OptElem) (w ds : ℚ)
    (hname : ∀ e wl, (co.su e wl).name = e.name) :
    scanGrating (undOut co chain w ds) = scanGrating chain := by
  unfold undOut
  rw [scan_set_name _ 1 _ (by rw [readE_set_ne _ 0 1 _ (by omega)]; simp)]
  rw [scan_set_name _ 0 _ (hname _ _)]

theorem scan_m1Out (md : Fin 2 → Fin 2 → ℚ) (chain : List OptElem) (dn : ℚ) :
    scanGrating (m1Out md chain dn) = scanGrating chain := by
  unfold m1Out
  rw [scan_set_name _ 4 _ (by
    rw [readE_set_ne _ 3 4 _ (by omega), readE_set_ne _ 2 4 _ (by omega)]
    simp)]
  rw [scan_set_name _ 3 _ (by
    rw [readE_set_ne _ 2 3 _ (by omega)]
    simp)]
  rw [scan_set_name _ 2 _ (by simp)]

theorem scan_monoOut (co : Collab) (chain : List OptElem) (w : ℚ) (cond : String)
    (v g2 g3 : ℚ) (p : Nat)
    (haaName : ∀ g d, (co.applyAlign g d).name = g.name) :
    scanGrating (monoOut co chain w cond v g2 g3 p) = scanGrating chain := by
  unfold monoOut
  rw [scan_set_name _ (p + 2) _ (by
    rw [readE_set_ne _ (p + 1) (p + 2) _ (by omega), readE_set_ne _ p (p + 2) _ (by omega)]
    simp)]
  rw [scan_set_name _ (p + 1) _ (by
    rw [readE_set_ne _ p (p + 1) _ (by omega)]
    simp)]
  rw [scan_set_name _ p _ (haaName _ _)]

/-! ### Composition of the three steps -/

theorem align_call_steps (co : Collab) (chain : List OptElem)
    (aw ew : ℚ) (cond : String) (v : ℚ) (md : Fin 2 → Fin 2 → ℚ)
    (g2 g3 ds dn : ℚ) (h5 : 5 ≤ chain.length) :
    align_call co chain aw ew cond v md g2 g3 ds dn =
      align_mono co (m1Out md (undOut co chain ew ds) dn) aw cond v g2 g3 := by
  unfold align_call
  rw [align_undulator_run co chain ew ds (by omega)]
  simp only [andThen]
  rw [align_m1_run md _ dn (by rw [length_undOut]; omega)]

/-! ### Concrete data for witnesses -/

/-- A concrete instantiation of the external collaborators, used to evaluate
the theorems on concrete inputs. -/
def sampleCollab : Collab where
  su := fun e _ => e
  sinF := fun _ => 1
  tanF := fun _ => 1
  solver := fun w _ v _ _ =>
    { alpha := v + w, beta := v, alpha_deg := 0, beta_deg := 0, deviation := v + w }
  applyAlign := fun g d => setTheta g d.alpha
  lp1 := 0
  lp2 := 9/5

/-- The `U52_M1B_G1600_mono` active chain of the notebook. -/
def sampleChain : List OptElem :=
  [ { name := "U52" }, { name := "pupil", distance_from_previous := 21 },
    { name := "M1A", phi := -90 }, { name := "M1B", theta := 253/100 },
    { name := "grating_1600", distance_from_previous := 5, line_density := 1600000,
      order_align := 1 },
    { name := "M2" }, { name := "M3", theta := 6/5 },
    { name := "mono_foc_hor", distance_from_previous := 1/5 },
    { name := "mono_foc_ver", distance_from_previous := 19/5 } ]

/-- A chain whose dispersive element is named with the French keyword
`Reseau` only: no element name contains `grating`. -/
def reseauChain : List OptElem :=
  [ { name := "U52" }, { name := "pupil" }, { name := "M1A" },
    { name := "M1C", theta := 6/5 },
    { name := "Reseau_600", line_density := 600000, order_align := 1 },
    { name := "M2" }, { name := "M3" } ]

/-- A chain with two matching elements: a `grating`-named one at position 2
and a later `reseau`-named one at position 4. -/
def mixedChain : List OptElem :=
  [ { name := "U52" }, { name := "pupil" },
    { name := "grating_1600", line_density := 1600000, order_align := 1 },
    { name := "M1B", theta := 253/100 },
    { name := "Reseau_600", line_density := 600000, order_align := 1 },
    { name := "M2" }, { name := "M3" } ]

/-- A chain with no grating-like element at all. -/
def noGratingChain : List OptElem :=
  [ { name := "U52" }, { name := "pupil" }, { name := "M1A" },
    { name := "M1B", theta := 7 }, { name := "mono_foc_ver" } ]

/-- A concrete `m1_distances` table. -/
def sampleM1d : Fin 2 → Fin 2 → ℚ := fun i j => (i.val : ℚ) * 2 + (j.val : ℚ) + 1

/-! ### The claims -/

/-- C1: when `align_mono` locates the grating at position `p`, it sets the
grazing angle of the element at `p + 1` to half the deviation angle returned
by the grating solver, that element's `distance_from_previous` to
`GM2_trans_dist / sin(deviation)`, and the `distance_from_previous` of the
element at `p + 2` to `GM3_proj_dist - GM2_trans_dist / tan(deviation)`. -/
theorem align_mono_sets_mono_leg (co : Collab) (chain : List OptElem) (w : ℚ)
    (cond : String) (v g2 g3 : ℚ) (p : Nat)
    (hscan : scanGrating chain = some p) (hb : p + 2 < chain.length) :
    (align_mono co chain w cond v g2 g3).2 = none ∧
    (readE (align_mono co chain w cond v g2 g3).1 (p + 1)).theta =
      (co.solver w cond v (readE chain p).order_align
        (readE chain p).line_density).deviation / 2 ∧
    (readE (align_mono co chain w cond v g2 g3).1 (p + 1)).distance_from_previous =
      g2 / co.sinF (co.solver w cond v (readE chain p).order_align
        (readE chain p).line_density).deviation ∧
    (readE (align_mono co chain w cond v g2 g3).1 (p + 2)).distance_from_previous =
      g3 - g2 / co.tanF (co.solver w cond v (readE chain p).order_align
        (readE chain p).line_density).deviation := by
  rw [align_mono_run co chain w cond v g2 g3 p hscan hb]
  refine ⟨rfl, ?_, ?_, ?_⟩
  · show (readE (monoOut co chain w cond v g2 g3 p) (p + 1)).theta = _
    rw [readE_monoOut_p1 co chain w cond v g2 g3 p (by omega)]
    simp [monoGD]
  · show (readE (monoOut co chain w cond v g2 g3 p) (p + 1)).distance_from_previous = _
    rw [readE_monoOut_p1 co chain w cond v g2 g3 p (by omega)]
    simp [monoGD]
  · show (readE (monoOut co chain w cond v g2 g3 p) (p + 2)).distance_from_previous = _
    rw [readE_monoOut_p2 co chain w cond v g2 g3 p hb]
    simp [monoGD]

/-- Witness for C1 on the `U52_M1B_G1600_mono` chain. -/
theorem align_mono_sets_mono_leg_witness :
    (scanGrating sampleChain = some 4 ∧ 4 + 2 < sampleChain.length) ∧
    (align_mono sampleCollab sampleChain (31/10) "cff" (1/5) (1/50) (7/10)).2 = none :=
  ⟨⟨by decide, by decide⟩,
    (align_mono_sets_mono_leg sampleCollab sampleChain (31/10) "cff" (1/5) (1/50) (7/10) 4
      (by decide) (by decide)).1⟩

/-- C6: `align_undulator` sets the second element's `distance_from_previous`
to the `dist_slit` default, and subtracts the `DEIMOS_2`/`DEIMOS_1`
`Long_Pos` offset exactly when the source name contains `"65"`; otherwise the
distance equals the default unchanged. -/
theorem align_undulator_aperture_distance (co : Collab) (chain : List OptElem)
    (w ds : ℚ) (h : 2 ≤ chain.length)
    (hname : ∀ e wl, (co.su e wl).name = e.name) :
    (align_undulator co chain w ds).2 = none ∧
    (readE (align_undulator co chain w ds).1 1).distance_from_previous =
      (if hasSub "65" ((readE chain 0).name) then ds - (co.lp2 - co.lp1) else ds) := by
  rw [align_undulator_run co chain w ds h]
  refine ⟨rfl, ?_⟩
  show (readE (undOut co chain w ds) 1).distance_from_previous = _
  rw [readE_undOut_one co chain w ds (by omega), hname]
  simp

/-- Witness for C6 with the default 21 m slit distance. -/
theorem align_undulator_aperture_distance_witness :
    (2 ≤ sampleChain.length) ∧
    (readE (align_undulator sampleCollab sampleChain (31/10) dist_slit_default).1
      1).distance_from_previous =
      (if hasSub "65" ((readE sampleChain 0).name) then
        dist_slit_default - (sampleCollab.lp2 - sampleCollab.lp1)
      else dist_slit_default) :=
  ⟨by decide,
    (align_undulator_aperture_distance sampleCollab sampleChain (31/10) dist_slit_default
      (by decide) (fun e wl => rfl)).2⟩

/-- C7: `align_m1` copies the fourth element's grazing angle onto the third,
relinks third → fourth and fourth → fifth, and sets the fifth element's
`distance_from_previous` to the caller-supplied `dist_next`, adjusted by
`m1_distances[1][1] - m1_distances[0][1]` exactly when the fourth element's
name contains `"1B"`. -/
theorem align_m1_periscope (md : Fin 2 → Fin 2 → ℚ) (chain : List OptElem)
    (dn : ℚ) (h : 5 ≤ chain.length) :
    (align_m1 md chain dn).2 = none ∧
    (readE (align_m1 md chain dn).1 2).theta = (readE chain 3).theta ∧
    (readE (align_m1 md chain dn).1 2).next = some 3 ∧
    (readE (align_m1 md chain dn).1 3).next = some 4 ∧
    (readE (align_m1 md chain dn).1 4).distance_from_previous =
      (if hasSub "1B" ((readE chain 3).name) then dn + (md 1 1 - md 0 1) else dn) := by
  rw [align_m1_run md chain dn h]
  refine ⟨rfl, ?_, ?_, ?_, ?_⟩
  · show (readE (m1Out md chain dn) 2).theta = _
    rw [readE_m1Out_two md chain dn (by omega)]
    simp
  · show (readE (m1Out md chain dn) 2).next = _
    rw [readE_m1Out_two md chain dn (by omega)]
    simp
  · show (readE (m1Out md chain dn) 3).next = _
    rw [readE_m1Out_three md chain dn (by omega)]
    simp
  · show (readE (m1Out md chain dn) 4).distance_from_previous = _
    rw [readE_m1Out_four md chain dn (by omega)]
    simp

/-- Witness for C7 on the low-energy (`M1B`) chain with the default 5 m. -/
theorem align_m1_periscope_witness :
    (5 ≤ sampleChain.length) ∧
    (readE (align_m1 sampleM1d sampleChain dist_next_default).1 4).distance_from_previous =
      (if hasSub "1B" ((readE sampleChain 3).name) then
        dist_next_default + (sampleM1d 1 1 - sampleM1d 0 1)
      else dist_next_default) :=
  ⟨by decide,
    (align_m1_periscope sampleM1d sampleChain dist_next_default (by decide)).2.2.2.2⟩

/-- C10 (frame): `align_m1` mutates only the third element's grazing angle
and `next` pointer, the fourth element's `next` pointer and the fifth
element's `distance_from_previous`; every other index and every other field
of the touched elements is unchanged. -/
theorem align_m1_frame (md : Fin 2 → Fin 2 → ℚ) (chain : List OptElem)
    (dn : ℚ) (h : 5 ≤ chain.length) :
    (align_m1 md chain dn).2 = none ∧
    (align_m1 md chain dn).1.length = chain.length ∧
    (∀ j, j ≠ 2 → j ≠ 3 → j ≠ 4 → readE (align_m1 md chain dn).1 j = readE chain j) ∧
    (readE (align_m1 md chain dn).1 2).name = (readE chain 2).name ∧
    (readE (align_m1 md chain dn).1 2).phi = (readE chain 2).phi ∧
    (readE (align_m1 md chain dn).1 2).distance_from_previous =
      (readE chain 2).distance_from_previous ∧
    (readE (align_m1 md chain dn).1 2).line_density = (readE chain 2).line_density ∧
    (readE (align_m1 md chain dn).1 2).order_align = (readE chain 2).order_align ∧
    (readE (align_m1 md chain dn).1 3).name = (readE chain 3).name ∧
    (readE (align_m1 md chain dn).1 3).theta = (readE chain 3).theta ∧
    (readE (align_m1 md chain dn).1 3).phi = (readE chain 3).phi ∧
    (readE (align_m1 md chain dn).1 3).distance_from_previous =
      (readE chain 3).distance_from_previous ∧
    (readE (align_m1 md chain dn).1 3).line_density = (readE chain 3).line_density ∧
    (readE (align_m1 md chain dn).1 3).order_align = (readE chain 3).order_align ∧
    (readE (align_m1 md chain dn).1 4).name = (readE chain 4).name ∧
    (readE (align_m1 md chain dn).1 4).theta = (readE chain 4).theta ∧
    (readE (align_m1 md chain dn).1 4).phi = (readE chain 4).phi ∧
    (readE (align_m1 md chain dn).1 4).next = (readE chain 4).next ∧
    (readE (align_m1 md chain dn).1 4).line_density = (readE chain 4).line_density ∧
    (readE (align_m1 md chain dn).1 4).order_align = (readE chain 4).order_align := by
  rw [align_m1_run md chain dn h]
  refine ⟨rfl, by simp only [length_m1Out], ?_, ?_⟩
  · intro j hj2 hj3 hj4
    exact readE_m1Out_other md chain dn j hj2 hj3 hj4
  · rw [show readE (m1Out md chain dn, (none : Option String)).1 2 =
      readE (m1Out md chain dn) 2 from rfl]
    rw [show readE (m1Out md chain dn, (none : Option String)).1 3 =
      readE (m1Out md chain dn) 3 from rfl]
    rw [show readE (m1Out md chain dn, (none : Option String)).1 4 =
      readE (m1Out md chain dn) 4 from rfl]
    rw [readE_m1Out_two md chain dn (by omega), readE_m1Out_three md chain dn (by omega),
      readE_m1Out_four md chain dn (by omega)]
    simp

/-- Witness for C10. -/
theorem align_m1_frame_witness :
    (5 ≤ sampleChain.length) ∧
    readE (align_m1 sampleM1d sampleChain dist_next_default).1 5 = readE sampleChain 5 :=
  ⟨by decide,
    (align_m1_frame sampleM1d sampleChain dist_next_default (by decide)).2.2.1 5
      (by decide) (by decide) (by decide)⟩

/-- C2 counterexample: in `reseauChain` no element name contains `"grating"`
(case-insensitively), yet `align_mono` raises nothing — refuting the claim
that an error is raised if and only if no name contains `"grating"`. -/
theorem align_mono_reseau_counterexample :
    (align_mono sampleCollab reseauChain (31/10) "cff" (1/5) (1/50) (7/10)).2 = none ∧
    reseauChain.all
      (fun e => !(listHasSub ("grating".data) (e.name.data.map Char.toLower))) = true :=
  ⟨by decide, by decide⟩

/-- C2 (amended): `align_mono` raises an error if and only if no element of
the active path has a name containing `"grating"` or `"reseau"`
(case-insensitively); in every other case — for every solver outcome and
every value of `sin`/`tan`, however extreme — it raises nothing and the
distance value `GM2_trans_dist / sin(deviation)` is assigned unguarded. -/
theorem align_mono_error_iff (co : Collab) (chain : List OptElem) (w : ℚ)
    (cond : String) (v g2 g3 : ℚ)
    (hb : ∀ p, scanGrating chain = some p → p + 2 < chain.length) :
    ((align_mono co chain w cond v g2 g3).2 ≠ none ↔
      ∀ e ∈ chain, gratingMatch e.name = false) ∧
    (∀ p, scanGrating chain = some p →
      (readE (align_mono co chain w cond v g2 g3).1 (p + 1)).distance_from_previous =
        g2 / co.sinF (co.solver w cond v (readE chain p).order_align
          (readE chain p).line_density).deviation) := by
  constructor
  · constructor
    · intro herr
      rw [← scanGrating_none_iff]
      rcases hopt : scanGrating chain with _ | p
      · rfl
      · rw [align_mono_run co chain w cond v g2 g3 p hopt (hb p hopt)] at herr
        exact absurd rfl herr
    · intro hall
      have hnone : scanGrating chain = none := (scanGrating_none_iff chain).mpr hall
      simp [align_mono, hnone]
  · intro p hp
    have hbp : p + 2 < chain.length := hb p hp
    rw [align_mono_run co chain w cond v g2 g3 p hp hbp]
    show (readE (monoOut co chain w cond v g2 g3 p) (p + 1)).distance_from_previous = _
    rw [readE_monoOut_p1 co chain w cond v g2 g3 p (by omega)]
    simp [monoGD]

/-- Witness for the amended C2 on the grating-bearing sample chain. -/
theorem align_mono_error_iff_witness :
    (∀ p, scanGrating sampleChain = some p → p + 2 < sampleChain.length) ∧
    ((align_mono sampleCollab sampleChain (31/10) "cff" (1/5) (1/50) (7/10)).2 ≠ none ↔
      ∀ e ∈ sampleChain, gratingMatch e.name = false) := by
  have hb : ∀ p, scanGrating sampleChain = some p → p + 2 < sampleChain.length := by
    intro p hp
    have h4 : scanGrating sampleChain = some 4 := by decide
    rw [h4] at hp
    cases hp
    decide
  exact ⟨hb, (align_mono_error_iff sampleCollab sampleChain (31/10) "cff" (1/5) (1/50)
    (7/10) hb).1⟩

/-- C8: the grating scan also accepts names containing `"reseau"`
(case-insensitively), and since the loop has no `break`, the last matching
element wins: with an earlier match at `i` and a final `reseau`-named match
at `p`, the scan returns `p` and the derived angle and distances are applied
to the elements at `p + 1` and `p + 2`. -/
theorem align_mono_reseau_last_match (co : Collab) (chain : List OptElem)
    (w : ℚ) (cond : String) (v g2 g3 : ℚ) (i p : Nat)
    (hip : i < p) (hpn : p + 2 < chain.length)
    (hi : gratingMatch (readE chain i).name = true)
    (hp : listHasSub ("reseau".data) ((readE chain p).name.data.map Char.toLower) = true)
    (hafter : ∀ j, p < j → j < chain.length → gratingMatch (readE chain j).name = false) :
    scanGrating chain = some p ∧
    (align_mono co chain w cond v g2 g3).2 = none ∧
    (readE (align_mono co chain w cond v g2 g3).1 (p + 1)).theta =
      (co.solver w cond v (readE chain p).order_align
        (readE chain p).line_density).deviation / 2 ∧
    (readE (align_mono co chain w cond v g2 g3).1 (p + 1)).distance_from_previous =
      g2 / co.sinF (co.solver w cond v (readE chain p).order_align
        (readE chain p).line_density).deviation ∧
    (readE (align_mono co chain w cond v g2 g3).1 (p + 2)).distance_from_previous =
      g3 - g2 / co.tanF (co.solver w cond v (readE chain p).order_align
        (readE chain p).line_density).deviation := by
  have hmatch : gratingMatch (readE chain p).name = true := by
    unfold gratingMatch
    rw [hp]
    rfl
  have hscan : scanGrating chain = some p :=
    scanGrating_last_match chain p (by omega) hmatch hafter
  refine ⟨hscan, ?_, ?_, ?_, ?_⟩
  · rw [align_mono_run co chain w cond v g2 g3 p hscan hpn]
  · rw [align_mono_run co chain w cond v g2 g3 p hscan hpn]
    show (readE (monoOut co chain w cond v g2 g3 p) (p + 1)).theta = _
    rw [readE_monoOut_p1 co chain w cond v g2 g3 p (by omega)]
    simp [monoGD]
  · rw [align_mono_run co chain w cond v g2 g3 p hscan hpn]
    show (readE (monoOut co chain w cond v g2 g3 p) (p + 1)).distance_from_previous = _
    rw [readE_monoOut_p1 co chain w cond v g2 g3 p (by omega)]
    simp [monoGD]
  · rw [align_mono_run co chain w cond v g2 g3 p hscan hpn]
    show (readE (monoOut co chain w cond v g2 g3 p) (p + 2)).distance_from_previous = _
    rw [readE_monoOut_p2 co chain w cond v g2 g3 p hpn]
    simp [monoGD]

/-- Witness for C8 on a chain with a grating at position 2 and a
`Reseau`-named element at position 4. -/
theorem align_mono_reseau_last_match_witness :
    (2 < 4 ∧ 4 + 2 < mixedChain.length ∧
      gratingMatch (readE mixedChain 2).name = true ∧
      listHasSub ("reseau".data) ((readE mixedChain 4).name.data.map Char.toLower) = true) ∧
    scanGrating mixedChain = some 4 := by
  have hafter : ∀ j, 4 < j → j < mixedChain.length →
      gratingMatch (readE mixedChain j).name = false := by
    intro j hj hjl
    have hjl7 : j < 7 := by simpa [mixedChain] using hjl
    interval_cases j <;> decide
  exact ⟨⟨by decide, by decide, by decide, by decide⟩,
    (align_mono_reseau_last_match sampleCollab mixedChain (31/10) "cff" (1/5) (1/50)
      (7/10) 2 4 (by decide) (by decide) (by decide) (by decide) hafter).1⟩

/-- C4 counterexample: on a five-element path with no grating-like element,
`align_call` raises the configuration error but does not leave the elements
unmutated — the resulting chain differs from the input. -/
theorem align_call_mutates_counterexample :
    (align_call sampleCollab noGratingChain (31/10) (31/10) "cff" (1/5) sampleM1d
      (1/50) (7/10) 21 5).2 =
      some "No grating appears in this beamline configuration" ∧
    (align_call sampleCollab noGratingChain (31/10) (31/10) "cff" (1/5) sampleM1d
      (1/50) (7/10) 21 5).1 ≠ noGratingChain :=
  ⟨by decide, by decide⟩

/-- C4 (amended): on a path with no grating-like element, `align_call`
raises the configuration error, but the undulator and M1 steps have already
run: the state observed when the error is raised is exactly the state left
by those two steps, not the pre-call state. -/
theorem align_call_no_grating_raises_after_mutation (co : Collab)
    (chain : List OptElem) (aw ew : ℚ) (cond : String) (v : ℚ)
    (md : Fin 2 → Fin 2 → ℚ) (g2 g3 ds dn : ℚ) (h5 : 5 ≤ chain.length)
    (hname : ∀ e wl, (co.su e wl).name = e.name)
    (hnog : ∀ e ∈ chain, gratingMatch e.name = false) :
    (align_call co chain aw ew cond v md g2 g3 ds dn).2 =
      some "No grating appears in this beamline configuration" ∧
    (align_call co chain aw ew cond v md g2 g3 ds dn).1 =
      m1Out md (undOut co chain ew ds) dn := by
  have hscan : scanGrating (m1Out md (undOut co chain ew ds) dn) = none := by
    rw [scan_m1Out, scan_undOut co chain ew ds hname]
    exact (scanGrating_none_iff chain).mpr hnog
  rw [align_call_steps co chain aw ew cond v md g2 g3 ds dn h5]
  simp [align_mono, hscan]

/-- Witness for the amended C4. -/
theorem align_call_no_grating_raises_after_mutation_witness :
    (5 ≤ noGratingChain.length ∧ ∀ e ∈ noGratingChain, gratingMatch e.name = false) ∧
    (align_call sampleCollab noGratingChain (31/10) (31/10) "cff" (1/5) sampleM1d
      (1/50) (7/10) 21 5).2 =
      some "No grating appears in this beamline configuration" :=
  ⟨⟨by decide, by decide⟩,
    (align_call_no_grating_raises_after_mutation sampleCollab noGratingChain (31/10)
      (31/10) "cff" (1/5) sampleM1d (1/50) (7/10) 21 5 (by decide) (fun e wl => rfl)
      (by decide)).1⟩

/-! ### The sweep driver claims -/

/-- C3: the spec scenario — energy array `[350, 1000, 1500]`, one
configuration, condition values `[0.1, 0.5]` — does not produce a table at
all: the progress-bar guard computes `i % (total_steps // 10)` with
`total_steps // 10 = 0`, so the code raises `ZeroDivisionError` instead of
returning a table with two fully populated columns. -/
theorem beamline_energy_resolution_three_points_div_zero :
    beamline_energy_resolution (fun _ _ _ => 0) [350, 1000, 1500]
      ["U52_M1B_G1600_mono"] "cff" [1/10, 1/2] =
      Except.error "ZeroDivisionError" := rfl

/-- C9: for every non-empty energy array with fewer than 10 points (and at
least one configuration and one condition value), `beamline_energy_resolution`
raises `ZeroDivisionError` from the progress-bar guard at the first energy
point of the first configuration, whatever resolution values the delegated
computation would have produced. -/
theorem beamline_energy_resolution_small_array_div_zero
    (getRes : String → ℚ → ℚ → ℚ) (energy : List ℚ) (chains : List String)
    (cond : String) (vals : List ℚ)
    (h1 : energy ≠ []) (h2 : energy.length < 10) (h3 : chains ≠ []) (h4 : vals ≠ []) :
    beamline_energy_resolution getRes energy chains cond vals =
      Except.error "ZeroDivisionError" := by
  obtain ⟨E, erest, rfl⟩ := List.exists_cons_of_ne_nil h1
  obtain ⟨cfg, crest, rfl⟩ := List.exists_cons_of_ne_nil h3
  obtain ⟨v0, vrest, rfl⟩ := List.exists_cons_of_ne_nil h4
  have hdiv : (erest.length + 1) / 10 = 0 := Nat.div_eq_of_lt (by
    simp only [List.length_cons] at h2
    omega)
  simp [beamline_energy_resolution, algnLoop, configLoop, energyLoop, hdiv]

/-- Witness for C9 with a 3-point energy array. -/
theorem beamline_energy_resolution_small_array_div_zero_witness :
    (([(350 : ℚ), 1000, 1500] : List ℚ) ≠ [] ∧
      ([(350 : ℚ), 1000, 1500] : List ℚ).length < 10 ∧
      (["U52_M1B_G1600_mono"] : List String) ≠ [] ∧ ([(1 : ℚ)/10] : List ℚ) ≠ []) ∧
    beamline_energy_resolution (fun _ _ _ => 1) [350, 1000, 1500]
      ["U52_M1B_G1600_mono"] "cff" [1/10] = Except.error "ZeroDivisionError" :=
  ⟨⟨by decide, by decide, by decide, by decide⟩,
    beamline_energy_resolution_small_array_div_zero (fun _ _ _ => 1) [350, 1000, 1500]
      ["U52_M1B_G1600_mono"] "cff" [1/10] (by decide) (by decide) (by decide) (by decide)⟩

/-- C5: running the three-step alignment twice with identical inputs on the
same active path yields exactly the same element state as running it once —
each step overwrites rather than accumulates.  The external collaborators are
assumed to behave like the real ones: `set_undulator` is idempotent at a
fixed wavelength and does not rename the source, and the solver's
`apply_alignment` effect is idempotent and touches neither the grating's
name, line density, alignment order nor its distance. -/
theorem align_call_idempotent (co : Collab) (chain : List OptElem)
    (aw ew : ℚ) (cond : String) (v : ℚ) (md : Fin 2 → Fin 2 → ℚ)
    (g2 g3 ds dn : ℚ) (p : Nat)
    (hscan : scanGrating chain = some p) (hp4 : 4 ≤ p) (hpn : p + 2 < chain.length)
    (hsuName : ∀ e wl, (co.su e wl).name = e.name)
    (hsuIdem : ∀ e wl, co.su (co.su e wl) wl = co.su e wl)
    (haaName : ∀ g d, (co.applyAlign g d).name = g.name)
    (haaLd : ∀ g d, (co.applyAlign g d).line_density = g.line_density)
    (haaOa : ∀ g d, (co.applyAlign g d).order_align = g.order_align)
    (haaDist : ∀ g d,
      (co.applyAlign g d).distance_from_previous = g.distance_from_previous)
    (haaIdem : ∀ g d, co.applyAlign (co.applyAlign g d) d = co.applyAlign g d) :
    (align_call co chain aw ew cond v md g2 g3 ds dn).2 = none ∧
    align_call co (align_call co chain aw ew cond v md g2 g3 ds dn).1
      aw ew cond v md g2 g3 ds dn =
      align_call co chain aw ew cond v md g2 g3 ds dn := by
  have h5 : 5 ≤ chain.length := by omega
  have hlenU : (undOut co chain ew ds).length = chain.length := length_undOut co chain ew ds
  have hlenM : (m1Out md (undOut co chain ew ds) dn).length = chain.length := by
    rw [length_m1Out, hlenU]
  have hscanM : scanGrating (m1Out md (undOut co chain ew ds) dn) = some p := by
    rw [scan_m1Out, scan_undOut co chain ew ds hsuName, hscan]
  have hpnM : p + 2 < (m1Out md (undOut co chain ew ds) dn).length := by
    rw [hlenM]
    exact hpn
  have hr1 : align_call co chain aw ew cond v md g2 g3 ds dn =
      (monoOut co (m1Out md (undOut co chain ew ds) dn) aw cond v g2 g3 p, none) := by
    rw [align_call_steps co chain aw ew cond v md g2 g3 ds dn h5,
      align_mono_run co _ aw cond v g2 g3 p hscanM hpnM]
  set M := m1Out md (undOut co chain ew ds) dn with hMdef
  set T := monoOut co M aw cond v g2 g3 p with hTdef
  have hlenT : T.length = chain.length := by
    rw [hTdef, length_monoOut]
    exact hlenM
  have hscanT : scanGrating T = some p := by
    rw [hTdef, scan_monoOut co M aw cond v g2 g3 p haaName]
    exact hscanM
  have hM0 : readE M 0 = co.su (readE chain 0) ew := by
    rw [hMdef, readE_m1Out_other md _ dn 0 (by omega) (by omega) (by omega),
      readE_undOut_zero co chain ew ds (by omega)]
  have hM1 : readE M 1 = setDist (readE chain 1)
      (if hasSub "65" ((co.su (readE chain 0) ew).name) then
        ds - (co.lp2 - co.lp1) else ds) := by
    rw [hMdef, readE_m1Out_other md _ dn 1 (by omega) (by omega) (by omega),
      readE_undOut_one co chain ew ds (by omega)]
  have hM2 : readE M 2 =
      setNext (setTheta (readE chain 2) (readE chain 3).theta) (some 3) := by
    rw [hMdef, readE_m1Out_two md _ dn (by rw [length_undOut]; omega),
      readE_undOut_other co chain ew ds 2 (by omega) (by omega),
      readE_undOut_other co chain ew ds 3 (by omega) (by omega)]
  have hM3 : readE M 3 = setNext (readE chain 3) (some 4) := by
    rw [hMdef, readE_m1Out_three md _ dn (by rw [length_undOut]; omega),
      readE_undOut_other co chain ew ds 3 (by omega) (by omega)]
  have hM4 : readE M 4 = setDist (readE chain 4)
      (if hasSub "1B" ((readE chain 3).name) then dn + (md 1 1 - md 0 1) else dn) := by
    rw [hMdef, readE_m1Out_four md _ dn (by rw [length_undOut]; omega),
      readE_undOut_other co chain ew ds 4 (by omega) (by omega),
      readE_undOut_other co chain ew ds 3 (by omega) (by omega)]
  have hT0 : readE T 0 = co.su (readE chain 0) ew := by
    rw [hTdef,
      readE_monoOut_other co M aw cond v g2 g3 p 0 (by omega) (by omega) (by omega), hM0]
  have hT1 : readE T 1 = setDist (readE chain 1)
      (if hasSub "65" ((co.su (readE chain 0) ew).name) then
        ds - (co.lp2 - co.lp1) else ds) := by
    rw [hTdef,
      readE_monoOut_other co M aw cond v g2 g3 p 1 (by omega) (by omega) (by omega), hM1]
  have hT2 : readE T 2 =
      setNext (setTheta (readE chain 2) (readE chain 3).theta) (some 3) := by
    rw [hTdef,
      readE_monoOut_other co M aw cond v g2 g3 p 2 (by omega) (by omega) (by omega), hM2]
  have hT3 : readE T 3 = setNext (readE chain 3) (some 4) := by
    rw [hTdef,
      readE_monoOut_other co M aw cond v g2 g3 p 3 (by omega) (by omega) (by omega), hM3]
  have hTp : readE T p = co.applyAlign (readE M p) (monoGD co M aw cond v p) := by
    rw [hTdef, readE_monoOut_p co M aw cond v g2 g3 p (by rw [hlenM]; omega)]
  have hTp1 : readE T (p + 1) =
      setDist (setTheta (readE M (p + 1)) ((monoGD co M aw cond v p).deviation / 2))
        (g2 / co.sinF (monoGD co M aw cond v p).deviation) := by
    rw [hTdef, readE_monoOut_p1 co M aw cond v g2 g3 p (by rw [hlenM]; omega)]
  have hTp2 : readE T (p + 2) =
      setDist (readE M (p + 2)) (g3 - g2 / co.tanF (monoGD co M aw cond v p).deviation) := by
    rw [hTdef, readE_monoOut_p2 co M aw cond v g2 g3 p (by rw [hlenM]; omega)]
  have hUT : undOut co T ew ds = T := by
    unfold undOut
    have hs0 : T.set 0 (co.su (readE T 0) ew) = T := by
      rw [hT0, hsuIdem (readE chain 0) ew, ← hT0]
      exact set_readE_self T 0 (by rw [hlenT]; omega)
    rw [hs0]
    have hcond : (co.su (readE T 0) ew).name = (co.su (readE chain 0) ew).name := by
      rw [hT0, hsuIdem]
    rw [hcond]
    rw [hT1, setDist_setDist, ← hT1]
    exact set_readE_self T 1 (by rw [hlenT]; omega)
  have hMT : m1Out md T dn = T := by
    unfold m1Out
    have hs2 : T.set 2 (setNext (setTheta (readE T 2) (readE T 3).theta) (some 3)) = T := by
      rw [hT3, setNext_theta, hT2]
      have hx : setTheta (setNext (setTheta (readE chain 2) (readE chain 3).theta)
          (some 3)) ((readE chain 3).theta) =
          setNext (setTheta (readE chain 2) (readE chain 3).theta) (some 3) :=
        setTheta_eq_self _ _ (by simp)
      rw [hx, setNext_setNext, ← hT2]
      exact set_readE_self T 2 (by rw [hlenT]; omega)
    rw [hs2]
    have hs3 : T.set 3 (setNext (readE T 3) (some 4)) = T := by
      rw [hT3, setNext_setNext, ← hT3]
      exact set_readE_self T 3 (by rw [hlenT]; omega)
    rw [hs3]
    rw [hT3, setNext_name]
    have hT4D : setDist (readE T 4)
        (if hasSub "1B" ((readE chain 3).name) then dn + (md 1 1 - md 0 1) else dn) =
        readE T 4 := by
      by_cases hp45 : p = 4
      · subst hp45
        rw [hTp]
        apply setDist_eq_self
        rw [haaDist, hM4, setDist_dist]
      · have hT4 : readE T 4 = readE M 4 := by
          rw [hTdef]
          exact readE_monoOut_other co M aw cond v g2 g3 p 4 (by omega) (by omega)
            (by omega)
        rw [hT4, hM4, setDist_setDist]
    rw [hT4D]
    exact set_readE_self T 4 (by rw [hlenT]; omega)
  have hgdT : monoGD co T aw cond v p = monoGD co M aw cond v p := by
    unfold monoGD
    rw [hTp, haaOa, haaLd]
  have hmonoT : monoOut co T aw cond v g2 g3 p = T := by
    unfold monoOut
    rw [hgdT]
    have hsp : T.set p (co.applyAlign (readE T p) (monoGD co M aw cond v p)) = T := by
      rw [hTp, haaIdem, ← hTp]
      exact set_readE_self T p (by rw [hlenT]; omega)
    rw [hsp]
    have hsp1 : T.set (p + 1)
        (setDist (setTheta (readE T (p + 1)) ((monoGD co M aw cond v p).deviation / 2))
          (g2 / co.sinF (monoGD co M aw cond v p).deviation)) = T := by
      rw [hTp1]
      have hx : setTheta (setDist
          (setTheta (readE M (p + 1)) ((monoGD co M aw cond v p).deviation / 2))
          (g2 / co.sinF (monoGD co M aw cond v p).deviation))
          ((monoGD co M aw cond v p).deviation / 2) =
          setDist (setTheta (readE M (p + 1)) ((monoGD co M aw cond v p).deviation / 2))
            (g2 / co.sinF (monoGD co M aw cond v p).deviation) :=
        setTheta_eq_self _ _ (by simp)
      rw [hx, setDist_setDist, ← hTp1]
      exact set_readE_self T (p + 1) (by rw [hlenT]; omega)
    rw [hsp1]
    rw [hTp2, setDist_setDist, ← hTp2]
    exact set_readE_self T (p + 2) (by rw [hlenT]; omega)
  constructor
  · rw [hr1]
  · rw [hr1]
    show align_call co T aw ew cond v md g2 g3 ds dn = (T, none)
    rw [align_call_steps co T aw ew cond v md g2 g3 ds dn (by rw [hlenT]; omega)]
    rw [hUT, hMT]
    rw [align_mono_run co T aw cond v g2 g3 p hscanT (by rw [hlenT]; omega), hmonoT]

/-- Witness for C5 on the `U52_M1B_G1600_mono` chain. -/
theorem align_call_idempotent_witness :
    (scanGrating sampleChain = some 4 ∧ 4 ≤ 4 ∧ 4 + 2 < sampleChain.length) ∧
    align_call sampleCollab (align_call sampleCollab sampleChain (31/10) (31/10) "cff"
        (1/5) sampleM1d (1/50) (7/10) 21 5).1 (31/10) (31/10) "cff"
      (1/5) sampleM1d (1/50) (7/10) 21 5 =
      align_call sampleCollab sampleChain (31/10) (31/10) "cff"
        (1/5) sampleM1d (1/50) (7/10) 21 5 :=
  ⟨⟨by decide, by decide, by decide⟩,
    (align_call_idempotent sampleCollab sampleChain (31/10) (31/10) "cff" (1/5)
      sampleM1d (1/50) (7/10) 21 5 4 (by decide) (by decide) (by decide)
      (fun e wl => rfl) (fun e wl => rfl) (fun g d => rfl) (fun g d => rfl)
      (fun g d => rfl) (fun g d => rfl) (fun g d => rfl)).2⟩

end SoleilDeimos
